import Mathlib

/-!
Verification development for the Osintnator query-orchestration engine
(`osintnator.py`, `datasets.py`, `scrapers.py`).

The Python sources are shallowly embedded below: pure functions become Lean
functions, the mutable per-run state of `_background_run` becomes explicit
state passing, dictionaries become association lists, the on-disk cache
becomes a path-indexed association list of parsed JSON values, and network
collaborators (Wayback, crt.sh, the scraper bodies) become function
parameters describing their observable behaviour.  Raised exceptions are
modelled with `Except` / explicit outcome types.
-/

/-! ## JSON values (model of Python dict/list/str/int/bool/None payloads) -/

inductive Json where
  | null : Json
  | bool (b : Bool) : Json
  | num (n : Int) : Json
  | str (s : String) : Json
  | arr (xs : List Json) : Json
  | obj (kvs : List (String × Json)) : Json

/-! ## Basic string helpers shared by the embedding -/

/-- First-match lookup in an association list (model of Python dict access). -/
def lookupA {α : Type} : List (String × α) → String → Option α
  | [], _ => none
  | (k, v) :: rest, key => if key == k then some v else lookupA rest key

/-- `charsPrefixEq n h` is true iff the char list `n` is a prefix of `h`. -/
def charsPrefixEq : List Char → List Char → Bool
  | [], _ => true
  | _ :: _, [] => false
  | c :: cs, d :: ds => c == d && charsPrefixEq cs ds

def charsInfixAux (needle : List Char) : List Char → Bool
  | [] => needle.isEmpty
  | c :: rest => charsPrefixEq needle (c :: rest) || charsInfixAux needle rest

/-- Model of the Python substring test `needle in hay`. -/
def inStr (needle hay : String) : Bool :=
  charsInfixAux needle.data hay.data

/-- Part of `s` before the first occurrence of `sep` (Python `s.split(sep)[0]`,
for a non-empty `sep`; whole string when `sep` does not occur). -/
def splitBeforeAux (sep : List Char) : List Char → List Char
  | [] => []
  | c :: rest =>
    if charsPrefixEq sep (c :: rest) then []
    else c :: splitBeforeAux sep rest

def split_before (sep s : String) : String :=
  String.mk (splitBeforeAux sep.data s.data)

/-- `digits_only` from osintnator.py: keep only decimal digit characters. -/
def digits_only (s : String) : String :=
  String.mk (s.data.filter Char.isDigit)

/-- Python `str.lower` (the sources only lower ASCII data; character-wise
`Char.toLower` mirrors `str.lower` there). -/
def strLower (s : String) : String :=
  String.mk (s.data.map Char.toLower)

/-- Python `str.strip()`: drop leading and trailing whitespace. -/
def strTrim (s : String) : String :=
  String.mk
    (((s.data.dropWhile Char.isWhitespace).reverse.dropWhile Char.isWhitespace).reverse)

/-! ## Data model: OSINTQuery and OSINTHit (osintnator.py dataclasses) -/

structure OSINTQuery where
  first : String := ""
  last : String := ""
  username : String := ""
  email : String := ""
  phone : String := ""
  address1 : String := ""
  city : String := ""
  state : String := ""
  zip : String := ""
deriving DecidableEq

/-- `OSINTQuery.full_name`: join of the stripped first/last parts that are
non-empty, with a single space. -/
def OSINTQuery.full_name (q : OSINTQuery) : String :=
  String.intercalate " " (([strTrim q.first, strTrim q.last]).filter (fun p => p ≠ ""))

/-- `OSINTQuery.to_ordered_dict`: the nine fields in declaration order
(Python builds this dict in this fixed insertion order; `x or ""` on a
string is the identity for the declared `str` fields). -/
def OSINTQuery.to_ordered_dict (q : OSINTQuery) : List (String × String) :=
  [("first", q.first), ("last", q.last), ("username", q.username),
   ("email", q.email), ("phone", q.phone), ("address1", q.address1),
   ("city", q.city), ("state", q.state), ("zip", q.zip)]

structure OSINTHit where
  site : String
  title : String
  snippet : String
  url : String
  raw : List (String × Json)

/-! ## Python `json.dumps` model

Escaping follows Python's json encoder: `"` and `\` and the named control
shortcuts, other control characters as `\u00xx`; with `ensure_ascii`
every character outside printable ASCII is `\uxxxx`-escaped (surrogate
pairs above U+FFFF).  Separators are the defaults `", "` and `": "`. -/

def hexDigitL (n : Nat) : Char :=
  if n < 10 then Char.ofNat (48 + n) else Char.ofNat (87 + n)

def hexDigitU (n : Nat) : Char :=
  if n < 10 then Char.ofNat (48 + n) else Char.ofNat (55 + n)

def hex4 (n : Nat) : String :=
  String.mk [hexDigitL (n / 4096 % 16), hexDigitL (n / 256 % 16),
             hexDigitL (n / 16 % 16), hexDigitL (n % 16)]

/-- `\uXXXX` escape of a scalar value, as a surrogate pair above U+FFFF. -/
def uniEsc (n : Nat) : String :=
  if n < 65536 then "\\u" ++ hex4 n
  else
    let m := n - 65536
    "\\u" ++ hex4 (55296 + m / 1024) ++ "\\u" ++ hex4 (56320 + m % 1024)

def escChar (ensureAscii : Bool) (c : Char) : String :=
  if c == '"' then "\\\""
  else if c == '\\' then "\\\\"
  else if c.toNat == 10 then "\\n"
  else if c.toNat == 9 then "\\t"
  else if c.toNat == 13 then "\\r"
  else if c.toNat == 8 then "\\b"
  else if c.toNat == 12 then "\\f"
  else if c.toNat < 32 then "\\u" ++ hex4 c.toNat
  else if ensureAscii && 126 < c.toNat then uniEsc c.toNat
  else String.singleton c

def escString (ensureAscii : Bool) (s : String) : String :=
  "\"" ++ String.join (s.data.map (escChar ensureAscii)) ++ "\""

mutual

/-- `json.dumps` of a JSON value with default separators. -/
def dumpsJ (ensureAscii : Bool) : Json → String
  | .null => "null"
  | .bool true => "true"
  | .bool false => "false"
  | .num n => toString n
  | .str s => escString ensureAscii s
  | .arr xs => "[" ++ dumpsArr ensureAscii xs ++ "]"
  | .obj kvs => "\x7b" ++ dumpsObj ensureAscii kvs ++ "\x7d"

def dumpsArr (ensureAscii : Bool) : List Json → String
  | [] => ""
  | [x] => dumpsJ ensureAscii x
  | x :: y :: rest => dumpsJ ensureAscii x ++ ", " ++ dumpsArr ensureAscii (y :: rest)

def dumpsObj (ensureAscii : Bool) : List (String × Json) → String
  | [] => ""
  | [(k, v)] => escString ensureAscii k ++ ": " ++ dumpsJ ensureAscii v
  | (k, v) :: kv :: rest =>
    escString ensureAscii k ++ ": " ++ dumpsJ ensureAscii v ++ ", " ++
      dumpsObj ensureAscii (kv :: rest)

end

/-! ## UTF-8 encoding and Python `quote_plus` -/

/-- UTF-8 bytes of one character. -/
def utf8Bytes (c : Char) : List Nat :=
  let n := c.toNat
  if n < 128 then [n]
  else if n < 2048 then [192 + n / 64, 128 + n % 64]
  else if n < 65536 then [224 + n / 4096, 128 + n / 64 % 64, 128 + n % 64]
  else [240 + n / 262144, 128 + n / 4096 % 64, 128 + n / 64 % 64, 128 + n % 64]

/-- UTF-8 byte sequence of a string. -/
def strUTF8 (s : String) : List Nat :=
  (s.data.map utf8Bytes).flatten

/-- Characters `urllib.parse.quote` never encodes: ASCII alphanumerics and
`_.-~`. -/
def alwaysSafeChar (c : Char) : Bool :=
  c.isAlphanum || c == '_' || c == '.' || c == '-' || c == '~'

def pctByte (b : Nat) : String :=
  String.mk ['%', hexDigitU (b / 16), hexDigitU (b % 16)]

/-- Python `urllib.parse.quote_plus`: space to `+`, safe characters kept,
everything else percent-encoded per UTF-8 byte with uppercase hex. -/
def quote_plus (s : String) : String :=
  String.join (s.data.map (fun c =>
    if c == ' ' then "+"
    else if alwaysSafeChar c then String.singleton c
    else String.join ((utf8Bytes c).map pctByte)))

/-! ## SHA-256 (model of `hashlib.sha256(...).hexdigest()`)

Words are `Nat` values kept below `2 ^ 32`; overflow is handled by explicit
`% 4294967296`. -/

def rotr32 (n x : Nat) : Nat :=
  (x >>> n) ||| ((x % 2 ^ n) <<< (32 - n))

def shaCh (x y z : Nat) : Nat := (x &&& y) ^^^ ((x ^^^ 4294967295) &&& z)

def shaMaj (x y z : Nat) : Nat := (x &&& y) ^^^ (x &&& z) ^^^ (y &&& z)

def bigSigma0 (x : Nat) : Nat := rotr32 2 x ^^^ rotr32 13 x ^^^ rotr32 22 x

def bigSigma1 (x : Nat) : Nat := rotr32 6 x ^^^ rotr32 11 x ^^^ rotr32 25 x

def smallSigma0 (x : Nat) : Nat := rotr32 7 x ^^^ rotr32 18 x ^^^ (x >>> 3)

def smallSigma1 (x : Nat) : Nat := rotr32 17 x ^^^ rotr32 19 x ^^^ (x >>> 10)

def shaK : List Nat :=
  [1116352408, 1899447441, 3049323471, 3921009573, 961987163,
   1508970993, 2453635748, 2870763221, 3624381080, 310598401,
   607225278, 1426881987, 1925078388, 2162078206, 2614888103,
   3248222580, 3835390401, 4022224774, 264347078, 604807628,
   770255983, 1249150122, 1555081692, 1996064986, 2554220882,
   2821834349, 2952996808, 3210313671, 3336571891, 3584528711,
   113926993, 338241895, 666307205, 773529912, 1294757372,
   1396182291, 1695183700, 1986661051, 2177026350, 2456956037,
   2730485921, 2820302411, 3259730800, 3345764771, 3516065817,
   3600352804, 4094571909, 275423344, 430227734, 506948616,
   659060556, 883997877, 958139571, 1322822218, 1537002063,
   1747873779, 1955562222, 2024104815, 2227730452, 2361852424,
   2428436474, 2756734187, 3204031479, 3329325298]

def shaH0 : List Nat :=
  [1779033703, 3144134277, 1013904242, 2773480762,
   1359893119, 2600822924, 528734635, 1541459225]

/-- Big-endian byte expansion of a value into `n` bytes. -/
def beBytes (n v : Nat) : List Nat :=
  (List.range n).map (fun i => v >>> (8 * (n - 1 - i)) % 256)

/-- SHA-256 padding of a byte message. -/
def sha256Pad (msg : List Nat) : List Nat :=
  let L := msg.length
  let padZeros := (119 - L % 64) % 64
  msg ++ [128] ++ List.replicate padZeros 0 ++ beBytes 8 (8 * L)

def chunksGo : Nat → List Nat → List (List Nat)
  | _, [] => []
  | 0, _ => []
  | fuel + 1, l => l.take 64 :: chunksGo fuel (l.drop 64)

def chunks64 (l : List Nat) : List (List Nat) := chunksGo l.length l

/-- The first 16 big-endian 32-bit words of a 64-byte chunk. -/
def words16 (chunk : List Nat) : List Nat :=
  (List.range 16).map (fun i =>
    chunk.getD (4 * i) 0 * 16777216 + chunk.getD (4 * i + 1) 0 * 65536 +
    chunk.getD (4 * i + 2) 0 * 256 + chunk.getD (4 * i + 3) 0)

/-- Message-schedule extension to 64 words. -/
def extendW (w : List Nat) : List Nat :=
  (List.range 48).foldl (fun acc _ =>
    let n := acc.length
    acc ++ [(smallSigma1 (acc.getD (n - 2) 0) + acc.getD (n - 7) 0 +
             smallSigma0 (acc.getD (n - 15) 0) + acc.getD (n - 16) 0) % 4294967296]) w

def compressBlock (h : List Nat) (chunk : List Nat) : List Nat :=
  let w := extendW (words16 chunk)
  let st :=
    (List.range 64).foldl
      (fun (st : Nat × Nat × Nat × Nat × Nat × Nat × Nat × Nat) i =>
        let (a, b, c, d, e, f, g, hh) := st
        let t1 := (hh + bigSigma1 e + shaCh e f g + shaK.getD i 0 + w.getD i 0) % 4294967296
        let t2 := (bigSigma0 a + shaMaj a b c) % 4294967296
        ((t1 + t2) % 4294967296, a, b, c, (d + t1) % 4294967296, e, f, g))
      (h.getD 0 0, h.getD 1 0, h.getD 2 0, h.getD 3 0,
       h.getD 4 0, h.getD 5 0, h.getD 6 0, h.getD 7 0)
  let (a, b, c, d, e, f, g, hh) := st
  [(h.getD 0 0 + a) % 4294967296, (h.getD 1 0 + b) % 4294967296,
   (h.getD 2 0 + c) % 4294967296, (h.getD 3 0 + d) % 4294967296,
   (h.getD 4 0 + e) % 4294967296, (h.getD 5 0 + f) % 4294967296,
   (h.getD 6 0 + g) % 4294967296, (h.getD 7 0 + hh) % 4294967296]

def hex8 (v : Nat) : String :=
  String.mk ((List.range 8).map (fun i => hexDigitL (v >>> (4 * (7 - i)) % 16)))

/-- Lowercase hex digest of the SHA-256 of a byte message. -/
def sha256_hex (msg : List Nat) : String :=
  String.join (((chunks64 (sha256Pad msg)).foldl compressBlock shaH0).map hex8)

/-! ## Canonical cache key and cache store (osintnator.py lines 218-251)

`cache_key_for_query` hashes `json.dumps(q.to_ordered_dict(), sort_keys=True,
ensure_ascii=False)`.  `sort_keys=True` serializes the dict entries ordered
by key; the dict has distinct keys, so any comparison sort produces the same
sequence and we use insertion sort by key. -/

def keyLe (a b : String × String) : Prop := a.1 ≤ b.1

instance : DecidableRel keyLe := fun a b => inferInstanceAs (Decidable (a.1 ≤ b.1))

instance : IsTotal (String × String) keyLe := ⟨fun a b => le_total a.1 b.1⟩

instance : IsTrans (String × String) keyLe := ⟨fun _ _ _ h1 h2 => le_trans h1 h2⟩

/-- `json.dumps(d, sort_keys=True, ensure_ascii=False)` for a str-to-str dict
with distinct keys. -/
def py_dumps_sorted_pairs (d : List (String × String)) : String :=
  "\x7b" ++
    String.intercalate ", "
      ((List.insertionSort keyLe d).map
        (fun kv => escString false kv.1 ++ ": " ++ escString false kv.2)) ++
  "\x7d"

/-- `cache_key_for_query`: SHA-256 hex digest of the canonical payload. -/
def cache_key_for_query (q : OSINTQuery) : String :=
  sha256_hex (strUTF8 (py_dumps_sorted_pairs q.to_ordered_dict))

/-- `cache_path_for_query`: `reports/cache/<key>.json`. -/
def cache_path_for_query (q : OSINTQuery) : String :=
  "reports/cache/" ++ cache_key_for_query q ++ ".json"

/-- The cache directory as a map from file path to the parsed JSON value the
file holds (text serialization and re-parsing is the json library's
round-trip, external to this model). -/
def CacheFS : Type := List (String × Json)

/-- Writing a file: the new entry shadows any previous one at that path. -/
def fsStore (path : String) (v : Json) (fs : CacheFS) : CacheFS :=
  (path, v) :: fs

/-- `os.remove` of one path (model of `clear_cache_for_query`). -/
def fsErase (path : String) (fs : CacheFS) : CacheFS :=
  fs.filter (fun kv => !(kv.1 == path))

/-- `asdict(h)` then `json.dump`: one hit as a JSON object in dataclass
field order. -/
def encode_hit (h : OSINTHit) : Json :=
  .obj [("site", .str h.site), ("title", .str h.title),
        ("snippet", .str h.snippet), ("url", .str h.url), ("raw", .obj h.raw)]

def encode_hits (hits : List OSINTHit) : Json :=
  .arr (hits.map encode_hit)

/-- `OSINTHit(**h)`: rebuild a hit from a JSON object carrying exactly the
five dataclass fields (with the values shaped as the field annotations
declare; any other shape is treated as the unreadable-cache case). -/
def decode_hit (j : Json) : Option OSINTHit :=
  match j with
  | .obj [("site", .str site), ("title", .str title), ("snippet", .str snippet),
          ("url", .str url), ("raw", .obj raw)] =>
    some ⟨site, title, snippet, url, raw⟩
  | _ => none

def decodeHitList : List Json → Option (List OSINTHit)
  | [] => some []
  | j :: rest =>
    match decode_hit j, decodeHitList rest with
    | some h, some hs => some (h :: hs)
    | _, _ => none

def decode_hits (j : Json) : Option (List OSINTHit) :=
  match j with
  | .arr xs => decodeHitList xs
  | _ => none

/-- `load_cache`: missing file or unparseable content is a miss (`[]`). -/
def load_cache (fs : CacheFS) (q : OSINTQuery) : List OSINTHit :=
  match lookupA fs (cache_path_for_query q) with
  | none => []
  | some j => (decode_hits j).getD []

/-- `save_cache`: overwrite the cache file with the serialized hit list. -/
def save_cache (fs : CacheFS) (q : OSINTQuery) (hits : List OSINTHit) : CacheFS :=
  fsStore (cache_path_for_query q) (encode_hits hits) fs

/-! ## Catalog data (osintnator.py lines 66-136) -/

def ENGINES : List (String × String) :=
  [("DuckDuckGo", "https://duckduckgo.com/?q="),
   ("Google", "https://www.google.com/search?q="),
   ("Brave", "https://search.brave.com/search?q="),
   ("Bing", "https://www.bing.com/search?q="),
   ("Yandex", "https://yandex.com/search/?text="),
   ("Baidu", "https://www.baidu.com/s?wd="),
   ("ZoomEye", "https://www.zoomeye.ai/search?q="),
   ("DogPile", "https://www.dogpile.com/serp?q=")]

def CATS : List (String × List String) :=
  [("People Search",
    ["FastPeopleSearch", "TruePeopleSearch", "TruePeopleSearch.io",
     "FastBackgroundCheck", "That’sThem", "FamilyTreeNow", "ZabaSearch",
     "Radaris", "NeighborReport", "Nuwber"]),
   ("Reverse Phone / Address",
    ["Whitepages (Free Search)", "411.com", "AnyWho", "WhoCallsMe", "SpyDialer",
     "CallerName", "OKCaller", "Sync.me", "NumLookup", "ReversePhoneLookup"]),
   ("Property Records & Accessor",
    ["Zillow", "Rehold", "NeighborWho", "HomeFacts", "Melissa Address Lookup",
     "PropertyShark", "Netronline Public Records", "PublicRecords360",
     "AddressSearch.com", "HOMES.com"]),
   ("Court/Criminal/Gov",
    ["PACER (federal index)", "VINELink", "BOP Inmate Locator",
     "State/County Court Directory", "InmateAid", "State Prison Inmate Locators",
     "Offender Search", "Arrests.org", "Mugshots.com", "BustedMugshots"]),
   ("Specialized / Extra",
    ["PeekYou", "Pipl (preview)", "Social Searcher", "Username Search",
     "instant username search", "IDcrawl", "Username Pack (direct)", "Hunter.io",
     "EmailHippo", "HaveIBeenPwned", "BlackBookOnline", "DataAxle Reference",
     "USPhoneBook"]),
   ("Worldwide",
    ["SearchSystems", "GestolenObjectenRegister", "RDW-OVI", "PeopleSearch AU",
     "QKenteken", "KVK Zoeken", "Sportradar", "Weibo", "HKU DataHub",
     "OpenStreetMap"])]

/-- `CATS.get(name, [])`. -/
def catGet (name : String) : List String :=
  (lookupA CATS name).getD []

/-- `SITE_DOMAIN`: `none` entries model the explicit `None` values. -/
def SITE_DOMAIN : List (String × Option String) :=
  [("FastPeopleSearch", some "fastpeoplesearch.com"),
   ("TruePeopleSearch", some "truepeoplesearch.com"),
   ("TruePeopleSearch.io", some "truepeoplesearch.io"),
   ("FastBackgroundCheck", some "fastbackgroundcheck.com"),
   ("That’sThem", some "thatsthem.com"),
   ("FamilyTreeNow", some "familytreenow.com"),
   ("ZabaSearch", some "zabasearch.com"),
   ("Radaris", some "radaris.com"),
   ("NeighborReport", none),
   ("Nuwber", some "nuwber.com"),
   ("Whitepages (Free Search)", some "whitepages.com"),
   ("411.com", some "411.com"),
   ("AnyWho", some "anywho.com"),
   ("WhoCallsMe", some "whocallsme.com"),
   ("SpyDialer", some "spydialer.com"),
   ("CallerName", none),
   ("OKCaller", some "okcaller.com"),
   ("Sync.me", some "sync.me"),
   ("NumLookup", some "numlookup.com"),
   ("ReversePhoneLookup", some "reversephonelookup.com"),
   ("Zillow", some "zillow.com"),
   ("Rehold", some "rehold.com"),
   ("NeighborWho", some "neighborwho.com"),
   ("HomeFacts", some "homefacts.com"),
   ("Melissa Address Lookup", some "melissa.com"),
   ("PropertyShark", some "propertyshark.com"),
   ("Netronline Public Records", some "netronline.com"),
   ("PublicRecords360", some "publicrecords360.com"),
   ("AddressSearch.com", some "addresssearch.com"),
   ("HOMES.com", some "homes.com"),
   ("PACER (federal index)", some "pacer.uscourts.gov"),
   ("VINELink", some "vinelink.vineapps.com"),
   ("BOP Inmate Locator", some "bop.gov"),
   ("State/County Court Directory", none),
   ("InmateAid", some "inmateaid.com"),
   ("State Prison Inmate Locators", none),
   ("Offender Search", some "nsopw.gov"),
   ("Arrests.org", some "arrests.org"),
   ("Mugshots.com", some "mugshots.com"),
   ("BustedMugshots", some "bustedmugshots.com"),
   ("PeekYou", some "peekyou.com"),
   ("Pipl (preview)", some "pipl.com"),
   ("Social Searcher", some "social-searcher.com"),
   ("Username Search", some "usersearch.org"),
   ("instant username search", some "instantusername.com"),
   ("IDcrawl", some "idcrawl.com/username-search"),
   ("Username Pack (direct)", none),
   ("Hunter.io", some "hunter.io"),
   ("EmailHippo", some "emailhippo.com"),
   ("HaveIBeenPwned", some "haveibeenpwned.com"),
   ("BlackBookOnline", some "blackbookonline.info"),
   ("DataAxle Reference", some "referenceusa.com"),
   ("USPhoneBook", some "usphonebook.com"),
   ("SearchSystems", some "searchsystems.net"),
   ("GestolenObjectenRegister", some "gestolenobjectenregister.nl"),
   ("RDW-OVI", some "ovi.rdw.nl"),
   ("PeopleSearch AU", some "peoplesearch.com.au"),
   ("QKenteken", some "qenteken.nl"),
   ("KVK Zoeken", some "kvk.nl"),
   ("Sportradar", some "sportradar.com"),
   ("Weibo", some "weibo.com"),
   ("HKU DataHub", some "datahub.hku.hk"),
   ("OpenStreetMap", some "openstreetmap.org")]

/-- `SITE_DOMAIN.get(site)`: `None` for a missing key and for a `None` value. -/
def siteDomainGet (site : String) : Option String :=
  (lookupA SITE_DOMAIN site).getD none

def SITE_URL : List (String × String) :=
  [("SearchSystems", "https://publicrecords.searchsystems.net/"),
   ("GestolenObjectenRegister", "https://gestolenobjectenregister.nl/"),
   ("RDW-OVI", "https://ovi.rdw.nl/"),
   ("PeopleSearch AU", "https://peoplesearch.com.au/"),
   ("QKenteken", "https://www.qenteken.nl/"),
   ("KVK Zoeken", "https://www.kvk.nl/zoeken/"),
   ("Sportradar", "https://sportradar.com/"),
   ("Weibo", "https://s.weibo.com/"),
   ("HKU DataHub", "https://datahub.hku.hk/"),
   ("OpenStreetMap", "https://www.openstreetmap.org/")]

def PRIORITY_SITES : List String :=
  ["Username Pack (direct)", "FamilyTreeNow", "WhoCallsMe", "HaveIBeenPwned"]

/-- `site_base_url` (osintnator.py lines 162-164). -/
def site_base_url (site : String) : Option String :=
  match lookupA SITE_URL site with
  | some u => some u
  | none =>
    match siteDomainGet site with
    | some dom => some ("https://" ++ dom)
    | none => none

/-- `dork_url` (osintnator.py lines 166-216): site-specific dork with
address-first tokens for property sites, phone-first for reverse-phone
sites, name/username/email/phone/address otherwise. -/
def dork_url (site_label : String) (q : OSINTQuery) (engine : String) : String :=
  let domain := siteDomainGet site_label
  let prop_sites := catGet "Property Records & Accessor"
  let rev_sites := catGet "Reverse Phone / Address"
  let toks : List String :=
    if prop_sites.contains site_label then
      (if q.address1 ≠ "" then ["\"" ++ q.address1 ++ "\""] else []) ++
      (if q.city ≠ "" then [q.city] else []) ++
      (if q.state ≠ "" then [q.state] else []) ++
      (if q.zip ≠ "" then [q.zip] else []) ++
      (if q.full_name ≠ "" then ["\"" ++ q.full_name ++ "\""] else []) ++
      (if q.phone ≠ "" then [digits_only q.phone] else []) ++
      (if q.email ≠ "" then [q.email] else []) ++
      (if q.username ≠ "" then [q.username] else [])
    else if rev_sites.contains site_label then
      (if q.phone ≠ "" then [digits_only q.phone] else []) ++
      (if q.full_name ≠ "" then ["\"" ++ q.full_name ++ "\""] else []) ++
      (if q.address1 ≠ "" then ["\"" ++ q.address1 ++ "\""] else []) ++
      (if q.city ≠ "" then [q.city] else []) ++
      (if q.state ≠ "" then [q.state] else []) ++
      (if q.zip ≠ "" then [q.zip] else []) ++
      (if q.email ≠ "" then [q.email] else []) ++
      (if q.username ≠ "" then [q.username] else [])
    else
      (if q.full_name ≠ "" then ["\"" ++ q.full_name ++ "\""] else []) ++
      (if q.username ≠ "" then [q.username] else []) ++
      (if q.email ≠ "" then [q.email] else []) ++
      (if q.phone ≠ "" then [digits_only q.phone] else []) ++
      (if q.address1 ≠ "" then ["\"" ++ q.address1 ++ "\""] else []) ++
      (if q.city ≠ "" then [q.city] else []) ++
      (if q.state ≠ "" then [q.state] else []) ++
      (if q.zip ≠ "" then [q.zip] else [])
  let parts : List String :=
    (match domain with
     | some d => ["site:" ++ d]
     | none => []) ++ toks
  let query_str :=
    if parts.isEmpty then (domain.getD site_label)
    else String.intercalate " " parts
  let base := (lookupA ENGINES engine).getD "https://duckduckgo.com/?q="
  base ++ quote_plus query_str

/-! ## datasets.py embedding

`find_wayback_snapshots` and `find_crtsh_certificates` are network
collaborators; their observable behaviour (hits returned for a domain and a
limit) is passed in as function parameters `wb` and `ct`. -/

/-- The dict shape dataset providers return (`{site, title, snippet, url,
raw}`); the Hint link carries no `raw` key, modelled as the empty object. -/
structure DSHit where
  site : String
  title : String
  snippet : String
  url : String
  raw : List (String × Json)

/-- One entry of the list handed to `search_sites_for_query`
(`{"label": ..., "domain": ...}`; the orchestrator omits `domain`). -/
structure SiteEntry where
  label : String
  domain : Option String

/-- The full-name token of `construct_search_links_for_site`:
`" ".join([q.get("first","").strip(), q.get("last","").strip()]).strip()`. -/
def cs_fullname (qd : List (String × String)) : String :=
  strTrim (strTrim ((lookupA qd "first").getD "") ++ " " ++ strTrim ((lookupA qd "last").getD ""))

/-- Token list of `construct_search_links_for_site` (datasets.py 118-122). -/
def cs_tokens (qd : List (String × String)) : List String :=
  (if cs_fullname qd ≠ "" then ["\"" ++ cs_fullname qd ++ "\""] else []) ++
  (if (lookupA qd "username").getD "" ≠ "" then [(lookupA qd "username").getD ""] else []) ++
  (if (lookupA qd "email").getD "" ≠ "" then [(lookupA qd "email").getD ""] else []) ++
  (if (lookupA qd "phone").getD "" ≠ "" then [digits_only ((lookupA qd "phone").getD "")] else [])

/-- The dork string of `construct_search_links_for_site` (datasets.py 124-127). -/
def cs_dork (site_label : String) (site_domain : Option String)
    (qd : List (String × String)) : String :=
  match site_domain with
  | some dom =>
    if (cs_tokens qd).isEmpty then "site:" ++ dom
    else String.intercalate " " (("site:" ++ dom) :: cs_tokens qd)
  | none =>
    if (cs_tokens qd).isEmpty then site_label
    else String.intercalate " " (cs_tokens qd)

def DS_ENGINES : List (String × String) :=
  [("DuckDuckGo", "https://duckduckgo.com/?q="),
   ("Google", "https://www.google.com/search?q="),
   ("Bing", "https://www.bing.com/search?q="),
   ("GitHub code", "https://github.com/search?q=")]

/-- `construct_search_links_for_site` (datasets.py 110-140). -/
def construct_search_links_for_site (site_label : String)
    (site_domain : Option String) (qd : List (String × String)) : List DSHit :=
  let dork := cs_dork site_label site_domain qd
  (DS_ENGINES.map (fun e =>
    let qstr :=
      if e.1 == "GitHub code" then quote_plus (String.intercalate " " (cs_tokens qd))
      else quote_plus dork
    { site := "Search Link", title := e.1 ++ " search", snippet := dork,
      url := e.2 ++ qstr, raw := [("engine", Json.str e.1)] })) ++
  [{ site := "Hint", title := "Common Crawl (index) / BigQuery hint",
     snippet := "Use Common Crawl index or BigQuery to fetch page text; BigQuery can be queried from console",
     url := "https://commoncrawl.org/", raw := [] }]

/-- `search_for_site` (datasets.py 143-174): Wayback for a known domain,
crt.sh when the domain has a dot, then search links; every returned hit has
its `site` field overwritten with a `label (provider)` tag. -/
def search_for_site (wb ct : String → Nat → List DSHit) (site_label : String)
    (site_domain : Option String) (qd : List (String × String)) : List DSHit :=
  (match site_domain with
   | some d => (wb d 4).map (fun r => { r with site := site_label ++ " (Wayback)" })
   | none => []) ++
  (match site_domain with
   | some d =>
     if inStr "." d then
       (ct d 4).map (fun c => { c with site := site_label ++ " (crt.sh)" })
     else []
   | none => []) ++
  (construct_search_links_for_site site_label site_domain qd).map
    (fun l => { l with site := site_label ++ " (Search link)" })

/-- `search_sites_for_query` (datasets.py 177-195); the per-entry
`try/except` and politeness sleep have no observable effect in this model
because the embedded `search_for_site` is total. -/
def search_sites_for_query (wb ct : String → Nat → List DSHit)
    (sites : List SiteEntry) (qd : List (String × String)) : List DSHit :=
  (sites.map (fun s => search_for_site wb ct s.label s.domain qd)).flatten

/-! ## scrapers.py embedding

Each registered scraper body performs network I/O; its observable behaviour
for one invocation is a `FnResult`.  `run_scraper` (scrapers.py 627-649)
dispatches on the registry and catches everything the body raises. -/

/-- Sites with an `@register` scraper, in registration order. -/
def SCRAPERS_sites : List String :=
  ["Username Pack (direct)", "HaveIBeenPwned", "IDcrawl", "Username Search",
   "Social Searcher", "PeekYou", "instant username search", "USPhoneBook",
   "WhoCallsMe", "FamilyTreeNow", "FastPeopleSearch", "TruePeopleSearch",
   "TruePeopleSearch.io", "FastBackgroundCheck", "ZabaSearch", "Radaris",
   "That’sThem", "EmailHippo", "Hunter.io", "BlackBookOnline",
   "DataAxle Reference"]

/-- What one invocation of a registered scraper body does: return a value
(possibly `None`), raise `NotImplementedError`, or raise something else. -/
inductive FnResult where
  | returns (hs : Option (List OSINTHit)) : FnResult
  | raisesNI : FnResult
  | raises (msg : String) : FnResult

/-- Python exceptions relevant at the `run_scraper` boundary. -/
inductive PyErr where
  | notImplemented : PyErr
  | other (msg : String) : PyErr

/-- The raw invocation `fn(sess, q)` of a scraper body. -/
def invoke_scraper (r : FnResult) : Except PyErr (Option (List OSINTHit)) :=
  match r with
  | .returns hs => .ok hs
  | .raisesNI => .error .notImplemented
  | .raises m => .error (.other m)

/-- `run_scraper` (scrapers.py 627-649): unregistered site yields `[]`;
`hits = fn(sess, q) or []`; `NotImplementedError` and any other exception
are caught and yield `[]`. -/
def run_scraper (site : String) (r : FnResult) : Except PyErr (List OSINTHit) :=
  if SCRAPERS_sites.contains site then
    match invoke_scraper r with
    | .ok hs => .ok (hs.getD [])
    | .error .notImplemented => .ok []
    | .error (.other _) => .ok []
  else .ok []

/-! ## Task scheduler (osintnator.py `_run_site_with_timeout` and the
worker-pool loop of `_background_run`, lines 281-289 and 747-792) -/

/-- Observable behaviour of one scheduled task: the inner future either
exceeds the deadline, or completes a `run_scraper` call with behaviour `r`,
or an infrastructure fault outside the runner's `try` block escapes
(session/executor failure). -/
inductive TaskEnv where
  | timesOut : TaskEnv
  | completes (r : FnResult) : TaskEnv
  | infraError (msg : String) : TaskEnv

/-- What `fut.result()` delivers back in the scheduler loop. -/
inductive TaskResult where
  | ok (hs : List OSINTHit) : TaskResult
  | timeout : TaskResult
  | exn (msg : String) : TaskResult

/-- `_run_site_with_timeout` (osintnator.py 281-289): re-raise a timeout,
map `NotImplementedError` and other exceptions from the scraper future to
`[]` (`hits or []` is the identity on the list `run_scraper` returns). -/
def run_site_with_timeout (site : String) (env : TaskEnv) : TaskResult :=
  match env with
  | .timesOut => .timeout
  | .infraError m => .exn m
  | .completes r =>
    match run_scraper site r with
    | .ok hs => .ok hs
    | .error .notImplemented => .ok []
    | .error (.other _) => .ok []

/-- Fallback pair for an empty scraper result (osintnator.py 765-773). -/
def empty_fallback (site : String) (q : OSINTQuery) (engine : String) : List OSINTHit :=
  (match site_base_url site with
   | some home =>
     [⟨site, site ++ " (open site)", "No scraper results — open site.", home,
       [("fallback", Json.str "home")]⟩]
   | none => []) ++
  [⟨site, site ++ " (search dork)", "No scraper results — try search.",
    dork_url site q engine, [("fallback", Json.str "dork")]⟩]

/-- Fallback pair for a timed-out task (osintnator.py 774-782). -/
def timeout_fallback (site : String) (q : OSINTQuery) (engine : String)
    (used_timeout : Nat) : List OSINTHit :=
  (match site_base_url site with
   | some home =>
     [⟨site, site ++ " (timeout→open site)",
       "Timed out after " ++ toString used_timeout ++ "s", home,
       [("timeout", Json.bool true), ("fallback", Json.str "home")]⟩]
   | none => []) ++
  [⟨site, site ++ " (timeout→dork)",
    "Timed out after " ++ toString used_timeout ++ "s",
    dork_url site q engine,
    [("timeout", Json.bool true), ("fallback", Json.str "dork")]⟩]

/-- Fallback pair for a task whose future raised (osintnator.py 783-791):
snippet is `str(e)[:300]`, raw carries the full `str(e)`. -/
def error_fallback (site : String) (q : OSINTQuery) (engine : String)
    (msg : String) : List OSINTHit :=
  (match site_base_url site with
   | some home =>
     [⟨site, site ++ " (error→open site)", msg.take 300, home,
       [("error", Json.str msg), ("fallback", Json.str "home")]⟩]
   | none => []) ++
  [⟨site, site ++ " (error→dork)", msg.take 300, dork_url site q engine,
    [("error", Json.str msg), ("fallback", Json.str "dork")]⟩]

/-- The scheduler's per-task outcome handling (osintnator.py 757-791). -/
def handle_task (site : String) (q : OSINTQuery) (engine : String)
    (used_timeout : Nat) (res : TaskResult) : List OSINTHit :=
  match res with
  | .ok hs => if hs.isEmpty then empty_fallback site q engine else hs
  | .timeout => timeout_fallback site q engine used_timeout
  | .exn m => error_fallback site q engine m

/-- Per-site timeout: `Username Pack (direct)` gets `max(timeout, 20)`
(osintnator.py 751-753). -/
def site_timeout (site : String) (timeout : Nat) : Nat :=
  if site == "Username Pack (direct)" then max timeout 20 else timeout

/-- All hits one scheduled task contributes. -/
def task_hits (site : String) (q : OSINTQuery) (engine : String)
    (timeout : Nat) (env : TaskEnv) : List OSINTHit :=
  handle_task site q engine (site_timeout site timeout)
    (run_site_with_timeout site env)

/-! ## Orchestrator: `_background_run` (osintnator.py 588-806) -/

/-- Priority reordering (osintnator.py 613-615). -/
def prioritized (sites : List String) : List String :=
  PRIORITY_SITES.filter (fun s => sites.contains s)

def ordered_sites (sites : List String) : List String :=
  prioritized sites ++ sites.filter (fun s => !((prioritized sites).contains s))

/-- Token candidates built from the query (osintnator.py 631-645). -/
def token_candidates (q : OSINTQuery) : List String :=
  (if q.full_name ≠ "" then
     [strLower q.full_name] ++
     (if q.first ≠ "" then [strLower q.first] else []) ++
     (if q.last ≠ "" then [strLower q.last] else [])
   else []) ++
  (if q.username ≠ "" then [strLower q.username] else []) ++
  (if q.email ≠ "" then [strLower q.email] else []) ++
  (if q.phone ≠ "" then
     (if digits_only q.phone ≠ "" then [digits_only q.phone] else [])
   else []) ++
  (if q.address1 ≠ "" then [strLower q.address1] else []) ++
  (if q.city ≠ "" then [strLower q.city] else []) ++
  (if q.state ≠ "" then [strLower q.state] else []) ++
  (if q.zip ≠ "" then [strLower q.zip] else [])

/-- Dedup keeping first occurrences and dropping empties (osintnator.py 648:
`[t for i, t in enumerate(tc) if t and t not in tc[:i]]`). -/
def dedupeAux (prev : List String) : List String → List String
  | [] => []
  | t :: rest =>
    if t == "" || prev.contains t then dedupeAux (prev ++ [t]) rest
    else t :: dedupeAux (prev ++ [t]) rest

def tokens (q : OSINTQuery) : List String :=
  dedupeAux [] (token_candidates q)

/-- Per-site tailored query dict (osintnator.py 658-675). -/
def site_qdict (q : OSINTQuery) (s : String) : List (String × String) :=
  if (catGet "Property Records & Accessor").contains s then
    [("address1", q.address1), ("city", q.city), ("state", q.state),
     ("zip", q.zip), ("first", q.first), ("last", q.last)]
  else if (catGet "Reverse Phone / Address").contains s then
    [("phone", q.phone), ("first", q.first), ("last", q.last),
     ("address1", q.address1)]
  else q.to_ordered_dict

/-- The accept test on one dataset hit (osintnator.py 696-708): some token
is a substring of the space-join of the lowered title, snippet, url and the
lowered default-`json.dumps` of the raw dict (`raw or {}` maps the empty
dict to itself). -/
def hit_matches_tokens (tks : List String) (title snippet url : String)
    (raw : List (String × Json)) : Bool :=
  let combined := String.intercalate " "
    [strLower title, strLower snippet, strLower url,
     strLower (dumpsJ true (Json.obj raw))]
  tks.any (fun tok => tok != "" && inStr tok combined)

def matched (tks : List String) (dh : DSHit) : Bool :=
  hit_matches_tokens tks dh.title dh.snippet dh.url dh.raw

/-- The aggregated hit built from an accepted dataset hit (osintnator.py
715-720): the site is `dh["site"].split(" (")[0]`. -/
def mkDatasetHit (dh : DSHit) : OSINTHit :=
  ⟨split_before " (" dh.site, dh.title, dh.snippet, dh.url, dh.raw⟩

/-- `satisfied_sites.add(label)` for the Python set, as a membership list. -/
def addLabel (sat : List String) (lbl : String) : List String :=
  if sat.contains lbl then sat else sat ++ [lbl]

/-- Mutable state accumulated over the dataset pre-pass. -/
structure PrefilterState where
  satisfied : List String
  results : List OSINTHit
  dsCalls : Nat

def initPrefilter : PrefilterState := ⟨[], [], 0⟩

/-- Processing of the dataset hits returned for one site (osintnator.py
694-722): accepted hits are appended to the run results and their truncated
label added to the satisfied set; rejected hits are dropped. -/
def ds_step (tks : List String) (st : PrefilterState) : List DSHit → PrefilterState
  | [] => st
  | dh :: rest =>
    if matched tks dh then
      ds_step tks
        { st with results := st.results ++ [mkDatasetHit dh],
                  satisfied := addLabel st.satisfied (split_before " (" dh.site) }
        rest
    else ds_step tks st rest

/-- The dataset pre-pass over the ordered site list (osintnator.py 652-722).
`search_site_for_query` does not exist in datasets.py, so the orchestrator
always takes the batch branch `search_sites_for_query([{"label": s}], ...)`;
the site entry carries no domain.  With no tokens every site is skipped and
no dataset call is made. -/
def dataset_phase (wb ct : String → Nat → List DSHit) (q : OSINTQuery)
    (tks : List String) : List String → PrefilterState → PrefilterState
  | [], st => st
  | s :: rest, st =>
    if 0 < tks.length then
      let dhs := search_sites_for_query wb ct [⟨s, none⟩] (site_qdict q s)
      dataset_phase wb ct q tks rest
        (ds_step tks { st with dsCalls := st.dsCalls + 1 } dhs)
    else dataset_phase wb ct q tks rest st

/-- `engine_guard` (osintnator.py 581-582). -/
def engine_guard (e : String) : String :=
  if (ENGINES.map Prod.fst).contains e then e else "DuckDuckGo"

/-- The hits of the live-scrape pool, one task per remaining site; task
completion interleaving does not change which hits each task contributes. -/
def scrape_phase (q : OSINTQuery) (engine : String) (timeout : Nat)
    (env : String → TaskEnv) : List String → List OSINTHit
  | [] => []
  | s :: rest => task_hits s q engine timeout (env s) ++ scrape_phase q engine timeout env rest

/-- Run configuration (engine choice and the timeout spinner; the worker
count only affects concurrency, which this model does not observe). -/
structure RunConfig where
  engine : String
  timeout : Nat

/-- Observable outcome of one `_background_run`: the hit events emitted in
order, the number of dataset-module invocations, the sites handed to the
scraper pool, the progress-increment events, the cache write, the final
`done` payload and the resulting cache directory. -/
structure RunOutcome where
  emitted : List OSINTHit
  dsCalls : Nat
  scraped : List String
  progressIncs : Nat
  savedCache : Option (List OSINTHit)
  doneCount : Nat
  fsOut : CacheFS

/-- The live (non-cache-short-circuit) part of `_background_run`
(osintnator.py 607-806). -/
def live_run (fs1 : CacheFS) (wb ct : String → Nat → List DSHit)
    (env : String → TaskEnv) (sites : List String) (q : OSINTQuery)
    (cfg : RunConfig) : RunOutcome :=
  let timeoutEff := max 3 cfg.timeout
  let engine := engine_guard cfg.engine
  let ordered := ordered_sites sites
  let st := dataset_phase wb ct q (tokens q) ordered initPrefilter
  let toScrape :=
    if st.satisfied.isEmpty then ordered
    else ordered.filter (fun s => !(st.satisfied.contains s))
  if toScrape.isEmpty then
    { emitted := st.results, dsCalls := st.dsCalls, scraped := [],
      progressIncs := 0,
      savedCache := if st.results.isEmpty then none else some st.results,
      doneCount := st.results.length,
      fsOut := if st.results.isEmpty then fs1 else save_cache fs1 q st.results }
  else
    let sh := scrape_phase q engine timeoutEff env toScrape
    let results := st.results ++ sh
    { emitted := results, dsCalls := st.dsCalls, scraped := toScrape,
      progressIncs := toScrape.length,
      savedCache := if results.isEmpty then none else some results,
      doneCount := results.length,
      fsOut := if results.isEmpty then fs1 else save_cache fs1 q results }

/-- `_background_run` (osintnator.py 588-806): with no bypass and a
non-empty cached hit list the run replays the cache and stops; a bypass
request first deletes the cache entry, then the live run proceeds. -/
def background_run (fs : CacheFS) (wb ct : String → Nat → List DSHit)
    (env : String → TaskEnv) (sites : List String) (skip_cache : Bool)
    (q : OSINTQuery) (cfg : RunConfig) : RunOutcome :=
  if skip_cache then
    live_run (fsErase (cache_path_for_query q) fs) wb ct env sites q cfg
  else
    let cache_hits := load_cache fs q
    if cache_hits.isEmpty then live_run fs wb ct env sites q cfg
    else
      { emitted := cache_hits, dsCalls := 0, scraped := [], progressIncs := 0,
        savedCache := none, doneCount := cache_hits.length, fsOut := fs }

/-! ## Shared helper lemmas -/

lemma decode_encode_hit (h : OSINTHit) : decode_hit (encode_hit h) = some h := by
  cases h
  rfl

lemma decodeHitList_encode (hits : List OSINTHit) :
    decodeHitList (hits.map encode_hit) = some hits := by
  induction hits with
  | nil => rfl
  | cons h rest ih => simp [decodeHitList, decode_encode_hit, ih]

lemma decode_encode_hits (hits : List OSINTHit) :
    decode_hits (encode_hits hits) = some hits := by
  simp [decode_hits, encode_hits, decodeHitList_encode]

lemma lookupA_fsStore_self (p : String) (v : Json) (fs : CacheFS) :
    lookupA (fsStore p v fs) p = some v := by
  simp [fsStore, lookupA]

lemma load_save_cache (fs : CacheFS) (q : OSINTQuery) (hits : List OSINTHit) :
    load_cache (save_cache fs q hits) q = hits := by
  simp [load_cache, save_cache, lookupA_fsStore_self, decode_encode_hits]

/-- For elements of `sites`, membership in the prioritized sublist is
membership in `PRIORITY_SITES`. -/
lemma remaining_filter_eq (sites : List String) :
    sites.filter (fun s => !((prioritized sites).contains s)) =
      sites.filter (fun s => !(PRIORITY_SITES.contains s)) := by
  apply List.filter_congr
  intro x hx
  have : (prioritized sites).contains x = PRIORITY_SITES.contains x := by
    by_cases hp : x ∈ PRIORITY_SITES
    · have : x ∈ prioritized sites := by
        simp [prioritized, List.mem_filter, hp, hx]
      simp_all
    · have : x ∉ prioritized sites := by
        simp [prioritized, List.mem_filter]
        intro h _
        exact absurd h hp
      simp_all
  rw [this]

/-- Claim C1 counterexample: with the input list
`["HaveIBeenPwned", "Username Pack (direct)"]` — both priority sources —
the claim requires the dispatch order to preserve their original relative
order, i.e. to equal the input list; the code instead reorders them to the
fixed `PRIORITY_SITES` order. -/
theorem C1_dispatch_order_counterexample :
    ordered_sites ["HaveIBeenPwned", "Username Pack (direct)"] =
      ["Username Pack (direct)", "HaveIBeenPwned"] ∧
    ordered_sites ["HaveIBeenPwned", "Username Pack (direct)"] ≠
      ["HaveIBeenPwned", "Username Pack (direct)"] := by
  constructor
  · rfl
  · decide

/-- Claim C1 (amended): the dispatch order places every priority source
before every non-priority source; the priority partition lists the selected
priority sources in the fixed order of the priority list (not the input
order), and the non-priority partition keeps the input list's relative
order (it is the input filtered to non-priority sources). -/
theorem C1_dispatch_order_amended (sites : List String) :
    ordered_sites sites =
      PRIORITY_SITES.filter (fun s => sites.contains s) ++
        sites.filter (fun s => !(PRIORITY_SITES.contains s)) ∧
    (∀ a ∈ PRIORITY_SITES.filter (fun s => sites.contains s), a ∈ PRIORITY_SITES) ∧
    (∀ b ∈ sites.filter (fun s => !(PRIORITY_SITES.contains s)), b ∉ PRIORITY_SITES) := by
  refine ⟨?_, ?_, ?_⟩
  · unfold ordered_sites
    rw [remaining_filter_eq]
    rfl
  · intro a ha
    exact (List.mem_filter.mp ha).1
  · intro b hb
    have := (List.mem_filter.mp hb).2
    simp_all

/-- Instantiation of the amended C1 theorem at a concrete selection. -/
theorem C1_dispatch_order_amended_witness :
    ordered_sites ["Zillow", "FamilyTreeNow"] =
      PRIORITY_SITES.filter (fun s => (["Zillow", "FamilyTreeNow"] : List String).contains s) ++
        (["Zillow", "FamilyTreeNow"] : List String).filter (fun s => !(PRIORITY_SITES.contains s)) :=
  (C1_dispatch_order_amended ["Zillow", "FamilyTreeNow"]).1

/-! ## Claim C4 -/

/-- Claim C4: a task that exceeds its timeout budget yields exactly two
hits (home fallback then dork fallback) when a home URL is resolvable for
the source, and exactly one (the dork fallback) when it is not; every such
hit's raw metadata carries `timeout=true` together with its fallback kind. -/
theorem C4_timeout_fallback (site : String) (q : OSINTQuery) (engine : String)
    (t : Nat) :
    (∀ u, site_base_url site = some u →
      task_hits site q engine t TaskEnv.timesOut =
        [⟨site, site ++ " (timeout→open site)",
          "Timed out after " ++ toString (site_timeout site t) ++ "s", u,
          [("timeout", Json.bool true), ("fallback", Json.str "home")]⟩,
         ⟨site, site ++ " (timeout→dork)",
          "Timed out after " ++ toString (site_timeout site t) ++ "s",
          dork_url site q engine,
          [("timeout", Json.bool true), ("fallback", Json.str "dork")]⟩]) ∧
    (site_base_url site = none →
      task_hits site q engine t TaskEnv.timesOut =
        [⟨site, site ++ " (timeout→dork)",
          "Timed out after " ++ toString (site_timeout site t) ++ "s",
          dork_url site q engine,
          [("timeout", Json.bool true), ("fallback", Json.str "dork")]⟩]) := by
  constructor
  · intro u hu
    simp [task_hits, handle_task, run_site_with_timeout, timeout_fallback, hu]
  · intro hu
    simp [task_hits, handle_task, run_site_with_timeout, timeout_fallback, hu]

/-- Concrete instantiation of C4: `FamilyTreeNow` resolves a home URL and
gets the two-hit timeout fallback; `CallerName` resolves none and gets only
the dork fallback. -/
theorem C4_timeout_fallback_witness :
    task_hits "FamilyTreeNow" {} "DuckDuckGo" 12 TaskEnv.timesOut =
      [⟨"FamilyTreeNow", "FamilyTreeNow (timeout→open site)",
        "Timed out after " ++ toString (site_timeout "FamilyTreeNow" 12) ++ "s",
        "https://familytreenow.com",
        [("timeout", Json.bool true), ("fallback", Json.str "home")]⟩,
       ⟨"FamilyTreeNow", "FamilyTreeNow (timeout→dork)",
        "Timed out after " ++ toString (site_timeout "FamilyTreeNow" 12) ++ "s",
        dork_url "FamilyTreeNow" {} "DuckDuckGo",
        [("timeout", Json.bool true), ("fallback", Json.str "dork")]⟩] ∧
    task_hits "CallerName" {} "DuckDuckGo" 12 TaskEnv.timesOut =
      [⟨"CallerName", "CallerName (timeout→dork)",
        "Timed out after " ++ toString (site_timeout "CallerName" 12) ++ "s",
        dork_url "CallerName" {} "DuckDuckGo",
        [("timeout", Json.bool true), ("fallback", Json.str "dork")]⟩] :=
  ⟨(C4_timeout_fallback "FamilyTreeNow" {} "DuckDuckGo" 12).1
      "https://familytreenow.com" rfl,
   (C4_timeout_fallback "CallerName" {} "DuckDuckGo" 12).2 rfl⟩

/-! ## Claim C6 -/

/-- Claim C6: round trip — after `save_cache` stores a non-empty hit list
under the query's key, `load_cache` for the same query returns the same
hits in the same order. -/
theorem C6_cache_round_trip (fs : CacheFS) (q : OSINTQuery)
    (hits : List OSINTHit) (_hne : hits ≠ []) :
    load_cache (save_cache fs q hits) q = hits :=
  load_save_cache fs q hits

/-- Concrete instantiation of C6 with a one-hit list. -/
theorem C6_cache_round_trip_witness :
    load_cache
      (save_cache [] { username := "alice" }
        [⟨"GitHub", "GitHub: found", "profile page", "https://github.com/alice",
          [("exists", Json.bool true), ("code", Json.num 200)]⟩])
      { username := "alice" } =
      [⟨"GitHub", "GitHub: found", "profile page", "https://github.com/alice",
        [("exists", Json.bool true), ("code", Json.num 200)]⟩] :=
  C6_cache_round_trip [] { username := "alice" } _ (by simp)

/-! ## Claim C10 -/

/-- Claim C10 (implicit): `run_scraper` is total and never raises — for
every site identifier and every behaviour of the scraper body it returns a
hit list: an unregistered site yields `[]`, a body raising
`NotImplementedError` yields `[]`, and a body raising any other exception
also yields `[]`, so no exception propagates to the scheduler. -/
theorem C10_run_scraper_total (site : String) (r : FnResult) :
    (∃ hs, run_scraper site r = Except.ok hs) ∧
    (SCRAPERS_sites.contains site = false → run_scraper site r = Except.ok []) ∧
    run_scraper site FnResult.raisesNI = Except.ok [] ∧
    (∀ msg, run_scraper site (FnResult.raises msg) = Except.ok []) := by
  have hcases : ∀ r' : FnResult, run_scraper site r' =
      if SCRAPERS_sites.contains site then
        (match invoke_scraper r' with
         | .ok hs => Except.ok (hs.getD [])
         | .error .notImplemented => Except.ok []
         | .error (.other _) => Except.ok [])
      else Except.ok [] := fun _ => rfl
  by_cases h : SCRAPERS_sites.contains site = true
  · refine ⟨?_, ?_, ?_, ?_⟩
    · cases r with
      | returns hs => exact ⟨hs.getD [], by rw [hcases, if_pos h]; rfl⟩
      | raisesNI => exact ⟨[], by rw [hcases, if_pos h]; rfl⟩
      | raises m => exact ⟨[], by rw [hcases, if_pos h]; rfl⟩
    · intro hfalse
      rw [hfalse] at h
      cases h
    · rw [hcases, if_pos h]
      rfl
    · intro msg
      rw [hcases, if_pos h]
      rfl
  · refine ⟨⟨[], by rw [hcases, if_neg h]⟩, fun _ => by rw [hcases, if_neg h],
      by rw [hcases, if_neg h], fun msg => by rw [hcases, if_neg h]⟩

/-- Concrete instantiation of C10: `Zillow` has no registered scraper, and a
raising body for a registered site is swallowed. -/
theorem C10_run_scraper_total_witness :
    run_scraper "Zillow" (FnResult.returns (some [⟨"Zillow", "t", "s", "u", []⟩])) =
      Except.ok [] ∧
    run_scraper "FamilyTreeNow" (FnResult.raises "boom") = Except.ok [] :=
  ⟨(C10_run_scraper_total "Zillow"
      (FnResult.returns (some [⟨"Zillow", "t", "s", "u", []⟩]))).2.1 (by decide),
   (C10_run_scraper_total "FamilyTreeNow"
      (FnResult.returns none)).2.2.2 "boom"⟩

/-! ## Claim C2 -/

lemma dataset_phase_no_tokens (wb ct : String → Nat → List DSHit)
    (q : OSINTQuery) (l : List String) (st : PrefilterState) :
    dataset_phase wb ct q [] l st = st := by
  induction l with
  | nil => rfl
  | cons s rest ih => simp [dataset_phase, ih]

lemma scrape_phase_cons (q : OSINTQuery) (engine : String) (t : Nat)
    (env : String → TaskEnv) (s : String) (rest : List String) :
    scrape_phase q engine t env (s :: rest) =
      task_hits s q engine t (env s) ++ scrape_phase q engine t env rest := rfl

/-- Claim C8: a run started without a cache bypass whose query has a
non-empty cached hit list emits exactly the cached hits and terminates with
zero dataset-module and zero scraper invocations; the cache file is left
untouched. -/
theorem C8_cache_short_circuit (fs : CacheFS) (wb ct : String → Nat → List DSHit)
    (env : String → TaskEnv) (sites : List String) (q : OSINTQuery)
    (cfg : RunConfig) (hne : (load_cache fs q).isEmpty = false) :
    background_run fs wb ct env sites false q cfg =
      { emitted := load_cache fs q, dsCalls := 0, scraped := [],
        progressIncs := 0, savedCache := none,
        doneCount := (load_cache fs q).length, fsOut := fs } := by
  have h : ¬ ((load_cache fs q).isEmpty = true) := by simp [hne]
  show (if (load_cache fs q).isEmpty = true then live_run fs wb ct env sites q cfg
        else { emitted := load_cache fs q, dsCalls := 0, scraped := [],
               progressIncs := 0, savedCache := none,
               doneCount := (load_cache fs q).length, fsOut := fs }) = _
  rw [if_neg h]

/-- Concrete instantiation of C8: a second run of the same query against
the cache directory the first run wrote replays the stored hit and does no
dataset or scraper work. -/
theorem C8_cache_short_circuit_witness :
    background_run
        (save_cache [] { email := "w@x.y" }
          [⟨"EmailHippo", "probe", "ok", "https://tools.emailhippo.com/", []⟩])
        (fun _ _ => []) (fun _ _ => []) (fun _ => TaskEnv.timesOut)
        ["EmailHippo"] false { email := "w@x.y" }
        { engine := "DuckDuckGo", timeout := 12 } =
      { emitted := load_cache
          (save_cache [] { email := "w@x.y" }
            [⟨"EmailHippo", "probe", "ok", "https://tools.emailhippo.com/", []⟩])
          { email := "w@x.y" },
        dsCalls := 0, scraped := [], progressIncs := 0, savedCache := none,
        doneCount := (load_cache
          (save_cache [] { email := "w@x.y" }
            [⟨"EmailHippo", "probe", "ok", "https://tools.emailhippo.com/", []⟩])
          { email := "w@x.y" }).length,
        fsOut := save_cache [] { email := "w@x.y" }
          [⟨"EmailHippo", "probe", "ok", "https://tools.emailhippo.com/", []⟩] } :=
  C8_cache_short_circuit _ _ _ _ _ _ _
    (by rw [load_save_cache]; rfl)

/-! ## Claim C7 -/

lemma live_run_no_tokens_ds_scraped (fs1 : CacheFS)
    (wb ct : String → Nat → List DSHit) (env : String → TaskEnv)
    (sites : List String) (q : OSINTQuery) (cfg : RunConfig)
    (htk : tokens q = []) :
    (live_run fs1 wb ct env sites q cfg).dsCalls = 0 ∧
    (live_run fs1 wb ct env sites q cfg).scraped = ordered_sites sites := by
  simp only [live_run, htk, dataset_phase_no_tokens, initPrefilter,
    List.isEmpty_nil, if_true]
  by_cases hord : (ordered_sites sites).isEmpty = true
  · have hnil : ordered_sites sites = [] := by
      cases hlist : ordered_sites sites with
      | nil => rfl
      | cons a b => rw [hlist] at hord; cases hord
    rw [if_pos hord, hnil]
    exact ⟨rfl, rfl⟩
  · rw [if_neg hord]
    exact ⟨rfl, rfl⟩

/-- Claim C7: when the query has all nine fields empty, the lower-cased
token set is empty, the run makes zero dataset-module invocations, and the
scheduler proceeds directly to the scrapers with the full ordered site
list. -/
theorem C7_empty_query_skips_datasets (fs : CacheFS)
    (wb ct : String → Nat → List DSHit) (env : String → TaskEnv)
    (sites : List String) (skip : Bool) (q : OSINTQuery) (cfg : RunConfig)
    (h1 : q.first = "") (h2 : q.last = "") (h3 : q.username = "")
    (h4 : q.email = "") (h5 : q.phone = "") (h6 : q.address1 = "")
    (h7 : q.city = "") (h8 : q.state = "") (h9 : q.zip = "")
    (hmiss : skip = true ∨ (load_cache fs q).isEmpty = true) :
    tokens q = [] ∧
    (background_run fs wb ct env sites skip q cfg).dsCalls = 0 ∧
    (background_run fs wb ct env sites skip q cfg).scraped = ordered_sites sites := by
  have hq : q = {} := by
    cases q
    simp_all
  subst hq
  have htk : tokens {} = [] := by decide
  refine ⟨htk, ?_⟩
  unfold background_run
  cases hskip : skip with
  | true => exact live_run_no_tokens_ds_scraped _ wb ct env sites {} cfg htk
  | false =>
    rcases hmiss with h | h
    · rw [hskip] at h; cases h
    · simp only [Bool.false_eq_true, if_false, h, if_true]
      exact live_run_no_tokens_ds_scraped _ wb ct env sites {} cfg htk

/-- Concrete instantiation of C7. -/
theorem C7_empty_query_skips_datasets_witness :
    tokens {} = [] ∧
    (background_run [] (fun _ _ => []) (fun _ _ => [])
        (fun _ => TaskEnv.completes (FnResult.returns (some []))) ["FamilyTreeNow"]
        false {} { engine := "DuckDuckGo", timeout := 12 }).dsCalls = 0 ∧
    (background_run [] (fun _ _ => []) (fun _ _ => [])
        (fun _ => TaskEnv.completes (FnResult.returns (some []))) ["FamilyTreeNow"]
        false {} { engine := "DuckDuckGo", timeout := 12 }).scraped =
      ordered_sites ["FamilyTreeNow"] :=
  C7_empty_query_skips_datasets [] (fun _ _ => []) (fun _ _ => [])
    (fun _ => TaskEnv.completes (FnResult.returns (some []))) ["FamilyTreeNow"]
    false {} { engine := "DuckDuckGo", timeout := 12 }
    rfl rfl rfl rfl rfl rfl rfl rfl rfl (Or.inr rfl)

/-! ## Claim C5 -/

/-- Two key-sorted association lists that are permutations of each other
with duplicate-free keys are equal. -/
lemma sorted_perm_nodupkeys_eq :
    ∀ l₁ l₂ : List (String × String), l₁.Perm l₂ →
      l₁.Pairwise keyLe → l₂.Pairwise keyLe → (l₁.map Prod.fst).Nodup →
      l₁ = l₂ := by
  intro l₁
  induction l₁ with
  | nil =>
    intro l₂ hp _ _ _
    exact (hp.symm.eq_nil).symm
  | cons x t₁ ih =>
    intro l₂ hp hs₁ hs₂ hnd
    cases l₂ with
    | nil => exact absurd hp.eq_nil (by simp)
    | cons y t₂ =>
      by_cases hxy : x = y
      · subst hxy
        have ht : t₁.Perm t₂ := hp.cons_inv
        have h₁ := (List.pairwise_cons.mp hs₁).2
        have h₂ := (List.pairwise_cons.mp hs₂).2
        have hnd' : (t₁.map Prod.fst).Nodup :=
          (List.nodup_cons.mp (by simpa using hnd)).2
        rw [ih t₂ ht h₁ h₂ hnd']
      · exfalso
        have hx2 : x ∈ y :: t₂ := hp.subset (List.mem_cons_self x t₁)
        have hy1 : y ∈ x :: t₁ := hp.symm.subset (List.mem_cons_self y t₂)
        have hx_t2 : x ∈ t₂ := by
          rcases List.mem_cons.mp hx2 with h | h
          · exact absurd h hxy
          · exact h
        have hy_t1 : y ∈ t₁ := by
          rcases List.mem_cons.mp hy1 with h | h
          · exact absurd h.symm hxy
          · exact h
        have hle1 : keyLe x y := (List.pairwise_cons.mp hs₁).1 y hy_t1
        have hle2 : keyLe y x := (List.pairwise_cons.mp hs₂).1 x hx_t2
        have hkey : x.1 = y.1 := le_antisymm hle1 hle2
        have hmem : x.1 ∈ t₁.map Prod.fst := List.mem_map.mpr ⟨y, hy_t1, hkey.symm⟩
        exact (List.nodup_cons.mp (by simpa using hnd)).1 hmem

/-- Sorting by key is invariant under permutation of an association list
with duplicate-free keys. -/
lemma insertionSort_eq_of_perm (d e : List (String × String)) (hperm : d.Perm e)
    (hnd : (e.map Prod.fst).Nodup) :
    List.insertionSort keyLe d = List.insertionSort keyLe e := by
  apply sorted_perm_nodupkeys_eq
  · exact (List.perm_insertionSort keyLe d).trans
      (hperm.trans (List.perm_insertionSort keyLe e).symm)
  · exact List.sorted_insertionSort keyLe d
  · exact List.sorted_insertionSort keyLe e
  · have h : (List.insertionSort keyLe d).Perm e :=
      (List.perm_insertionSort keyLe d).trans hperm
    exact ((h.map Prod.fst).nodup_iff).mpr hnd

lemma to_ordered_keys_nodup (q : OSINTQuery) :
    (q.to_ordered_dict.map Prod.fst).Nodup := by
  show (["first", "last", "username", "email", "phone", "address1", "city",
         "state", "zip"] : List String).Nodup
  decide

/-- Claim C5: the canonical cache key depends only on the nine field
values — two queries with pairwise-equal fields give equal keys — and the
serialized payload is independent of the order in which the nine field
bindings were assembled (any permutation of the field/value pairs sorts to
the same payload and hashes to the same key).  Totality and determinism
hold by construction: `cache_key_for_query` is a Lean function. -/
theorem C5_canonical_key (q1 q2 : OSINTQuery)
    (h1 : q1.first = q2.first) (h2 : q1.last = q2.last)
    (h3 : q1.username = q2.username) (h4 : q1.email = q2.email)
    (h5 : q1.phone = q2.phone) (h6 : q1.address1 = q2.address1)
    (h7 : q1.city = q2.city) (h8 : q1.state = q2.state)
    (h9 : q1.zip = q2.zip) :
    cache_key_for_query q1 = cache_key_for_query q2 ∧
    ∀ d : List (String × String), d.Perm q1.to_ordered_dict →
      (d.map Prod.fst).Nodup →
      sha256_hex (strUTF8 (py_dumps_sorted_pairs d)) = cache_key_for_query q1 := by
  have hq : q1 = q2 := by
    cases q1
    cases q2
    simp_all
  subst hq
  refine ⟨rfl, ?_⟩
  intro d hperm _hnd
  unfold cache_key_for_query py_dumps_sorted_pairs
  rw [insertionSort_eq_of_perm d q1.to_ordered_dict hperm (to_ordered_keys_nodup q1)]

/-- Concrete instantiation of C5: the same field values assembled in a
different order (here: the reversed binding list) produce the same key. -/
theorem C5_canonical_key_witness :
    cache_key_for_query
        { first := "Ada", last := "Lovelace", username := "ada", email := "a@b.c",
          phone := "+1 555 012", address1 := "12 Main St", city := "York",
          state := "NY", zip := "10001" } =
      cache_key_for_query
        { zip := "10001", state := "NY", city := "York", address1 := "12 Main St",
          phone := "+1 555 012", email := "a@b.c", username := "ada",
          last := "Lovelace", first := "Ada" } ∧
    sha256_hex (strUTF8 (py_dumps_sorted_pairs
        (OSINTQuery.to_ordered_dict
          { first := "Ada", last := "Lovelace", username := "ada", email := "a@b.c",
            phone := "+1 555 012", address1 := "12 Main St", city := "York",
            state := "NY", zip := "10001" }).reverse)) =
      cache_key_for_query
        { first := "Ada", last := "Lovelace", username := "ada", email := "a@b.c",
          phone := "+1 555 012", address1 := "12 Main St", city := "York",
          state := "NY", zip := "10001" } :=
  ⟨(C5_canonical_key _ _ rfl rfl rfl rfl rfl rfl rfl rfl rfl).1,
   (C5_canonical_key _ _ rfl rfl rfl rfl rfl rfl rfl rfl rfl).2 _
     (List.reverse_perm _) (by decide)⟩

/-! ## Claim C9 -/

lemma ds_step_all (tks : List String) (dhs : List DSHit) (st : PrefilterState)
    (hst : st.results.all
      (fun h => hit_matches_tokens tks h.title h.snippet h.url h.raw) = true) :
    (ds_step tks st dhs).results.all
      (fun h => hit_matches_tokens tks h.title h.snippet h.url h.raw) = true := by
  induction dhs generalizing st with
  | nil => exact hst
  | cons dh rest ih =>
    unfold ds_step
    by_cases hm : matched tks dh = true
    · rw [if_pos hm]
      apply ih
      rw [List.all_append, hst]
      simpa [mkDatasetHit, matched] using hm
    · rw [if_neg hm]
      exact ih st hst

lemma dataset_phase_all (wb ct : String → Nat → List DSHit) (q : OSINTQuery)
    (tks : List String) (l : List String) (st : PrefilterState)
    (hst : st.results.all
      (fun h => hit_matches_tokens tks h.title h.snippet h.url h.raw) = true) :
    (dataset_phase wb ct q tks l st).results.all
      (fun h => hit_matches_tokens tks h.title h.snippet h.url h.raw) = true := by
  induction l generalizing st with
  | nil => exact hst
  | cons s rest ih =>
    unfold dataset_phase
    by_cases hc : 0 < tks.length
    · rw [if_pos hc]
      exact ih _ (ds_step_all tks _ _ hst)
    · rw [if_neg hc]
      exact ih st hst

/-- Claim C9: every dataset-prefilter hit surfaced to the aggregator passes
the accept test — at least one lower-cased query token occurs as a
substring of the space-join of its lower-cased title, snippet, url and
JSON-serialized raw metadata.  Consequently a candidate hit sharing no
token with the query is never among the surfaced results. -/
theorem C9_surfaced_dataset_hits_share_token (wb ct : String → Nat → List DSHit)
    (q : OSINTQuery) (ordered : List String) :
    ((dataset_phase wb ct q (tokens q) ordered initPrefilter).results).all
      (fun h => hit_matches_tokens (tokens q) h.title h.snippet h.url h.raw) = true :=
  dataset_phase_all wb ct q (tokens q) ordered initPrefilter rfl

/-! ## Claim C3 -/

/-- The labels the prefilter is expected to mark satisfied, stated from the
amended claim: the truncation at the first `" ("` of the site field of
every accepted dataset hit. -/
def accepted_labels (tks : List String) : List DSHit → List String
  | [] => []
  | dh :: rest =>
    (if matched tks dh then [split_before " (" dh.site] else []) ++
      accepted_labels tks rest

/-- The accepted labels accumulated across the processed site list. -/
def accepted_labels_for_run (wb ct : String → Nat → List DSHit) (q : OSINTQuery)
    (tks : List String) : List String → List String
  | [] => []
  | s :: rest =>
    (if 0 < tks.length then
       accepted_labels tks (search_sites_for_query wb ct [⟨s, none⟩] (site_qdict q s))
     else []) ++ accepted_labels_for_run wb ct q tks rest

lemma mem_addLabel (sat : List String) (l x : String) :
    x ∈ addLabel sat l ↔ x ∈ sat ∨ x = l := by
  unfold addLabel
  by_cases h : sat.contains l = true
  · rw [if_pos h]
    have hl : l ∈ sat := by simpa using h
    exact ⟨Or.inl, fun hx => hx.elim id (fun he => he ▸ hl)⟩
  · rw [if_neg h]
    simp

lemma ds_step_satisfied_mem (tks : List String) (dhs : List DSHit)
    (st : PrefilterState) (x : String) :
    x ∈ (ds_step tks st dhs).satisfied ↔
      x ∈ st.satisfied ∨ x ∈ accepted_labels tks dhs := by
  induction dhs generalizing st with
  | nil => simp [ds_step, accepted_labels]
  | cons dh rest ih =>
    unfold ds_step accepted_labels
    by_cases hm : matched tks dh = true
    · rw [if_pos hm, if_pos hm]
      rw [ih]
      simp only [mem_addLabel, List.mem_append, List.mem_singleton]
      tauto
    · rw [if_neg hm, if_neg hm]
      rw [ih]
      simp

lemma dataset_phase_satisfied_mem (wb ct : String → Nat → List DSHit)
    (q : OSINTQuery) (tks : List String) (l : List String)
    (st : PrefilterState) (x : String) :
    x ∈ (dataset_phase wb ct q tks l st).satisfied ↔
      x ∈ st.satisfied ∨ x ∈ accepted_labels_for_run wb ct q tks l := by
  induction l generalizing st with
  | nil => simp [dataset_phase, accepted_labels_for_run]
  | cons s rest ih =>
    unfold dataset_phase accepted_labels_for_run
    by_cases hc : 0 < tks.length
    · rw [if_pos hc, if_pos hc]
      rw [ih, ds_step_satisfied_mem]
      simp only [List.mem_append]
      tauto
    · rw [if_neg hc, if_neg hc]
      rw [ih]
      simp

lemma mem_toScrape (ordered sat : List String) (s : String) :
    (s ∈ (if sat.isEmpty then ordered
          else ordered.filter (fun x => !(sat.contains x)))) ↔
      (s ∈ ordered ∧ s ∉ sat) := by
  by_cases h : sat.isEmpty = true
  · rw [if_pos h]
    have hnil : sat = [] := by
      cases hs : sat with
      | nil => rfl
      | cons a b => rw [hs] at h; cases h
    subst hnil
    simp
  · rw [if_neg h]
    simp [List.mem_filter]

/-- Claim C3 counterexample: one run with the selected source
`"Whitepages (Free Search)"` and query first=al last=zz.  The dataset
module returns search-link hits whose site fields read
`"Whitepages (Free Search) (Search link)"`; four of them are accepted and
surfaced (site truncated to `"Whitepages"`), so the source accrued accepted
dataset hits — yet the live-scrape scheduler still processes
`"Whitepages (Free Search)"`, because only the truncated label
`"Whitepages"` was marked satisfied. -/
theorem C3_satisfied_removal_counterexample :
    ((background_run [] (fun _ _ => []) (fun _ _ => [])
        (fun _ => TaskEnv.completes (FnResult.returns (some [])))
        ["Whitepages (Free Search)"] false { first := "al", last := "zz" }
        { engine := "DuckDuckGo", timeout := 12 }).emitted.map OSINTHit.site) =
      ["Whitepages", "Whitepages", "Whitepages", "Whitepages",
       "Whitepages (Free Search)", "Whitepages (Free Search)"] ∧
    (dataset_phase (fun _ _ => []) (fun _ _ => []) { first := "al", last := "zz" }
        (tokens { first := "al", last := "zz" })
        (ordered_sites ["Whitepages (Free Search)"]) initPrefilter).satisfied =
      ["Whitepages"] ∧
    ((background_run [] (fun _ _ => []) (fun _ _ => [])
        (fun _ => TaskEnv.completes (FnResult.returns (some [])))
        ["Whitepages (Free Search)"] false { first := "al", last := "zz" }
        { engine := "DuckDuckGo", timeout := 12 }).scraped) =
      ["Whitepages (Free Search)"] := by
  exact ⟨rfl, rfl, rfl⟩

/-- Claim C3 (amended): what the prefilter marks satisfied is exactly the
set of truncations at the first `" ("` of the site fields of the accepted
dataset hits, and a source from the ordered list is removed from the
live-scrape set iff its full identifier equals one of those truncated
labels.  For provider hits tagged `label (provider)` this removes exactly
the sources whose identifier contains no `" ("`; identifiers such as
`"Username Pack (direct)"` or `"Whitepages (Free Search)"` never match
their own truncation and are not removed. -/
theorem C3_satisfied_removal_amended (fs1 : CacheFS)
    (wb ct : String → Nat → List DSHit) (env : String → TaskEnv)
    (sites : List String) (q : OSINTQuery) (cfg : RunConfig) :
    (∀ x, x ∈ (dataset_phase wb ct q (tokens q) (ordered_sites sites)
                initPrefilter).satisfied ↔
        x ∈ accepted_labels_for_run wb ct q (tokens q) (ordered_sites sites)) ∧
    (∀ s, s ∈ (live_run fs1 wb ct env sites q cfg).scraped ↔
        (s ∈ ordered_sites sites ∧
         s ∉ (dataset_phase wb ct q (tokens q) (ordered_sites sites)
                initPrefilter).satisfied)) := by
  constructor
  · intro x
    rw [dataset_phase_satisfied_mem]
    simp [initPrefilter]
  · intro s
    simp only [live_run]
    by_cases hts :
        (if (dataset_phase wb ct q (tokens q) (ordered_sites sites)
              initPrefilter).satisfied.isEmpty then ordered_sites sites
         else (ordered_sites sites).filter
           (fun x => !((dataset_phase wb ct q (tokens q) (ordered_sites sites)
              initPrefilter).satisfied.contains x))).isEmpty = true
    · rw [if_pos hts]
      have hnil :
          (if (dataset_phase wb ct q (tokens q) (ordered_sites sites)
                initPrefilter).satisfied.isEmpty then ordered_sites sites
           else (ordered_sites sites).filter
             (fun x => !((dataset_phase wb ct q (tokens q) (ordered_sites sites)
                initPrefilter).satisfied.contains x))) = [] := by
        revert hts
        cases hs :
            (if (dataset_phase wb ct q (tokens q) (ordered_sites sites)
                  initPrefilter).satisfied.isEmpty then ordered_sites sites
             else (ordered_sites sites).filter
               (fun x => !((dataset_phase wb ct q (tokens q) (ordered_sites sites)
                  initPrefilter).satisfied.contains x))) with
        | nil => intro _; rfl
        | cons a b => intro h; cases h
      rw [← mem_toScrape (ordered_sites sites) _ s, hnil]
    · rw [if_neg hts]
      exact mem_toScrape (ordered_sites sites) _ s

/-- Concrete instantiation of the amended C3 theorem at the counterexample
run: membership of the source in the scraped list is equivalent to it not
being a satisfied label. -/
theorem C3_satisfied_removal_amended_witness :
    "Whitepages (Free Search)" ∈
        (live_run [] (fun _ _ => []) (fun _ _ => [])
          (fun _ => TaskEnv.completes (FnResult.returns (some [])))
          ["Whitepages (Free Search)"] { first := "al", last := "zz" }
          { engine := "DuckDuckGo", timeout := 12 }).scraped ↔
      ("Whitepages (Free Search)" ∈ ordered_sites ["Whitepages (Free Search)"] ∧
       "Whitepages (Free Search)" ∉
         (dataset_phase (fun _ _ => []) (fun _ _ => [])
            { first := "al", last := "zz" }
            (tokens { first := "al", last := "zz" })
            (ordered_sites ["Whitepages (Free Search)"]) initPrefilter).satisfied) :=
  (C3_satisfied_removal_amended [] (fun _ _ => []) (fun _ _ => [])
    (fun _ => TaskEnv.completes (FnResult.returns (some [])))
    ["Whitepages (Free Search)"] { first := "al", last := "zz" }
    { engine := "DuckDuckGo", timeout := 12 }).2 "Whitepages (Free Search)"
